import Mathlib

/-!
# Verification of `ftrules/fraud2rules.py` (`FraudToRules`)

A shallow embedding of the `FraudToRules` estimator: the tree-to-rule
extraction (`_tree_to_rules`), the `fit` pipeline (holdout split,
`max_samples` validation, per-estimator tree fitting, rule extraction,
rule sorting, attribute assignment), and the scoring surface
(`decision_function`, `predict`, `check_is_fitted`).

Numeric feature values and thresholds are modelled as rationals
(the source holds float64 data; no claim here depends on rounding).
External collaborators (the scikit-learn tree learner and the pandas
predicate-evaluation engine) are modelled per the specification's
capability contracts, as noted at each definition.
-/

deriving instance DecidableEq for Except

namespace FraudToRules

/-- The comparison operators emitted by the tree walker
(`symbol = '<='`, `symbol2 = '>'` in `_tree_to_rules`). -/
inductive CmpOp where
  | le : CmpOp
  | gt : CmpOp
deriving DecidableEq, Repr

/-- Rendering of a comparison operator, as it appears in rule strings. -/
def CmpOp.str : CmpOp → String
  | .le => "<="
  | .gt => ">"

/-- One atomic comparison `feature_name op threshold` of a rule. -/
structure Atom where
  name : String
  op : CmpOp
  threshold : ℚ
deriving DecidableEq, Repr

/-- A fitted scikit-learn decision tree, as `_tree_to_rules` reads it:
the source exposes arrays `tree_.feature` (with the `TREE_UNDEFINED`
sentinel exactly on leaves), `tree_.threshold`, `tree_.children_left`
and `tree_.children_right`, rooted at node index 0.  The invariant that
sentinel-feature nodes are leaves and every other node has two children
makes that arena encoding equivalent to this inductive binary tree. -/
inductive PyTree where
  | leaf : PyTree
  | node (feature : Nat) (threshold : ℚ) (left right : PyTree) : PyTree
deriving DecidableEq, Repr

/-- Number of leaves of a tree. -/
def numLeaves : PyTree → Nat
  | .leaf => 1
  | .node _ _ l r => numLeaves l + numLeaves r

/-- `"{} {} {}".format(name, symbol, threshold)` of `_tree_to_rules`
(the decimal rendering of a float threshold is abstracted by the
rational's `toString`; no theorem depends on the digit string). -/
def fmtCmp (name : String) (sym : String) (thr : ℚ) : String :=
  name ++ " " ++ sym ++ " " ++ toString thr

/-- The inner `recurse(node, base_name)` of `_tree_to_rules`.
At an internal node it recurses left with `feature <= threshold`
appended and then right with `feature > threshold` appended; at a leaf
it emits `str.join(' and ', base_name)`.  The shared `rules` list of
the source collects the left subtree's rules before the right's, which
is the append below.  `feature_names[i]` would raise `IndexError` on an
out-of-range feature index (spec: `InvalidTreeStructure`); the lookup
default is never hit on a well-formed tree and both sides of the
refinement theorem use the same lookup. -/
def treeToRulesAux (fns : List String) : PyTree → List String → List String
  | .leaf, base => [String.intercalate " and " base]
  | .node f thr l r, base =>
      treeToRulesAux fns l (base ++ [fmtCmp (fns.getD f "undefined!") (CmpOp.str .le) thr]) ++
        treeToRulesAux fns r (base ++ [fmtCmp (fns.getD f "undefined!") (CmpOp.str .gt) thr])

/-- `FraudToRules._tree_to_rules` (lines 275-315): `recurse(0, [])`. -/
def treeToRules (fns : List String) (t : PyTree) : List String :=
  treeToRulesAux fns t []

/-- Rendering of a structured rule as the source's rule string:
the conjunction's atoms formatted and joined with `' and '`. -/
def ruleStr (r : List Atom) : String :=
  String.intercalate " and " (r.map (fun a => fmtCmp a.name a.op.str a.threshold))

/-- The root-to-leaf comparison paths of a tree, following the spec's
words (§4.1): descending to a left child appends `feature ≤ threshold`,
descending to a right child appends `feature > threshold`, and each
leaf yields the accumulated path.  This is the refinement target that
`treeToRules` is compared against. -/
def specPaths (fns : List String) : PyTree → List (List Atom)
  | .leaf => [[]]
  | .node f thr l r =>
      (specPaths fns l).map (fun p => ⟨fns.getD f "undefined!", CmpOp.le, thr⟩ :: p) ++
        (specPaths fns r).map (fun p => ⟨fns.getD f "undefined!", CmpOp.gt, thr⟩ :: p)

theorem specPaths_length (fns : List String) (t : PyTree) :
    (specPaths fns t).length = numLeaves t := by
  induction t with
  | leaf => rfl
  | node f thr l r ihl ihr => simp [specPaths, numLeaves, ihl, ihr]

theorem numLeaves_pos (t : PyTree) : 0 < numLeaves t := by
  induction t with
  | leaf => exact Nat.one_pos
  | node f thr l r ihl ihr => exact Nat.add_pos_left ihl _

theorem treeToRulesAux_spec (fns : List String) (t : PyTree) :
    ∀ base : List String,
      treeToRulesAux fns t base =
        (specPaths fns t).map
          (fun p => String.intercalate " and "
            (base ++ p.map (fun a => fmtCmp a.name a.op.str a.threshold))) := by
  induction t with
  | leaf => intro base; simp [treeToRulesAux, specPaths]
  | node f thr l r ihl ihr =>
      intro base
      simp only [treeToRulesAux, specPaths, List.map_append, List.map_map, ihl, ihr]
      congr 1 <;>
        · apply List.map_congr_left
          intro p _
          simp [Function.comp, List.append_assoc]

theorem treeToRules_spec (fns : List String) (t : PyTree) :
    treeToRules fns t = (specPaths fns t).map ruleStr := by
  rw [treeToRules, treeToRulesAux_spec]
  apply List.map_congr_left
  intro p _
  simp [ruleStr]

theorem treeToRules_length (fns : List String) (t : PyTree) :
    (treeToRules fns t).length = numLeaves t := by
  rw [treeToRules_spec, List.length_map, specPaths_length]

theorem treeToRules_ne_nil (fns : List String) (t : PyTree) :
    treeToRules fns t ≠ [] := by
  intro h
  have := treeToRules_length fns t
  rw [h] at this
  exact absurd this.symm (Nat.ne_of_gt (numLeaves_pos t))

/-! ## Rule evaluation -/

/-- Modelled from the spec: the predicate-evaluation capability
(pandas `df.query`) is an external collaborator (spec §1, §6); §4.2
gives its contract on one atomic comparison: the value of the column
named by the atom is compared against the threshold with the atom's
operator.  The column is resolved by name among the frame's columns;
an absent column or row position cannot satisfy the comparison. -/
def evalAtom (cols : List String) (row : List ℚ) (a : Atom) : Bool :=
  match cols.findIdx? (fun c => c == a.name) with
  | some i =>
      match row.get? i with
      | some v =>
          match a.op with
          | .le => decide (v ≤ a.threshold)
          | .gt => decide (a.threshold < v)
      | none => false
  | none => false

/-- Modelled from the spec (§4.2): a record satisfies a rule when every
atomic comparison of the conjunction holds (AND semantics); an empty
conjunction matches every record. -/
def rowSatisfies (cols : List String) (r : List Atom) (row : List ℚ) : Bool :=
  r.all (evalAtom cols row)

/-- Modelled from the spec (§4.2, §6): `list(df.query(r).index)` for a
frame built from `X` with default positional index — the list of row
positions whose row satisfies the rule. -/
def dfQueryIdx (cols : List String) (r : List Atom) (X : List (List ℚ)) : List Nat :=
  (List.range X.length).filter (fun i => rowSatisfies cols r (X.getD i []))

theorem mem_dfQueryIdx (cols : List String) (r : List Atom) (X : List (List ℚ))
    (j : Nat) (hj : j < X.length) :
    (j ∈ dfQueryIdx cols r X) ↔ rowSatisfies cols r (X.getD j []) = true := by
  simp [dfQueryIdx, List.mem_filter, List.mem_range, hj]

/-! ## The scoring loop of `decision_function` -/

/-- `scores[list(df.query(r).index)] += w` (line 270): starting from
position `i`, each entry of the score vector whose position is in the
matched-index list is increased by `w`. -/
def addWeight : List ℚ → List Nat → ℚ → Nat → List ℚ
  | [], _, _, _ => []
  | s :: rest, idx, w, i =>
      (if idx.contains i then s + w else s) :: addWeight rest idx w (i + 1)

theorem contains_iff_mem (l : List Nat) (a : Nat) : l.contains a = true ↔ a ∈ l :=
  ⟨fun h => List.elem_iff.mp h, fun h => List.elem_iff.mpr h⟩

/-- Lines 265-273 of `decision_function`: take the first
`n_estimators` entries of the (rule, weight) list, accumulate each
selected rule's weight onto the rows it matches starting from the zero
vector, then negate (`scores = -scores`). -/
def decisionScores (cols : List String) (ps : List (List Atom × ℚ))
    (nEst : Nat) (X : List (List ℚ)) : List ℚ :=
  let selected := ps.take nEst
  let scores := selected.foldl
    (fun sc rw => addWeight sc (dfQueryIdx cols rw.1 X) rw.2 0)
    (List.replicate X.length (0 : ℚ))
  scores.map (fun s => -s)

theorem addWeight_get? (idx : List Nat) (w : ℚ) :
    ∀ (sc : List ℚ) (i j : Nat),
      (addWeight sc idx w i).get? j =
        (sc.get? j).map (fun s => if idx.contains (i + j) then s + w else s) := by
  intro sc
  induction sc with
  | nil => intro i j; rfl
  | cons s rest ih =>
      intro i j
      cases j with
      | zero => simp [addWeight]
      | succ j =>
          have h := ih (i + 1) j
          have hidx : i + 1 + j = i + (j + 1) := by omega
          rw [hidx] at h
          exact h

theorem addWeight_length (idx : List Nat) (w : ℚ) :
    ∀ (sc : List ℚ) (i : Nat), (addWeight sc idx w i).length = sc.length := by
  intro sc
  induction sc with
  | nil => intro i; rfl
  | cons s rest ih => intro i; simp [addWeight, ih]

theorem foldl_addWeight_get? (cols : List String) (X : List (List ℚ)) :
    ∀ (ps : List (List Atom × ℚ)) (sc : List ℚ) (j : Nat),
      (ps.foldl (fun sc rw => addWeight sc (dfQueryIdx cols rw.1 X) rw.2 0) sc).get? j =
        (sc.get? j).map
          (fun s => s +
            ((ps.filter (fun rw => (dfQueryIdx cols rw.1 X).contains j)).map Prod.snd).sum) := by
  intro ps
  induction ps with
  | nil =>
      intro sc j
      simp only [List.foldl_nil, List.filter_nil, List.map_nil, List.sum_nil, add_zero]
      cases sc.get? j <;> rfl
  | cons rw rest ih =>
      intro sc j
      rw [List.foldl_cons, ih]
      rw [addWeight_get?]
      cases hsc : sc.get? j with
      | none => rfl
      | some s =>
          simp only [Option.map_some', Nat.zero_add]
          cases hmem : (dfQueryIdx cols rw.1 X).contains j with
          | true =>
              have hmem' : j ∈ dfQueryIdx cols rw.1 X := (contains_iff_mem _ _).mp hmem
              simp [List.filter_cons, hmem', add_assoc]
          | false =>
              have hmem' : j ∉ dfQueryIdx cols rw.1 X := fun hm => by
                rw [(contains_iff_mem _ _).mpr hm] at hmem
                exact Bool.noConfusion hmem
              simp [List.filter_cons, hmem']

theorem replicate_zero_get? (n j : Nat) (hj : j < n) :
    (List.replicate n (0 : ℚ)).get? j = some 0 := by
  rw [List.get?_eq_get]
  · simp
  · simpa using hj

theorem decisionScores_get? (cols : List String) (ps : List (List Atom × ℚ))
    (nEst : Nat) (X : List (List ℚ)) (j : Nat) (hj : j < X.length) :
    (decisionScores cols ps nEst X).get? j =
      some (-(((ps.take nEst).filter
        (fun rw => rowSatisfies cols rw.1 (X.getD j []))).map Prod.snd).sum) := by
  unfold decisionScores
  rw [List.get?_map, foldl_addWeight_get?, replicate_zero_get? _ _ hj]
  have hfilter :
      (ps.take nEst).filter (fun rw => (dfQueryIdx cols rw.1 X).contains j) =
        (ps.take nEst).filter (fun rw => rowSatisfies cols rw.1 (X.getD j [])) := by
    apply List.filter_congr
    intro rw _
    have h := mem_dfQueryIdx cols rw.1 X j hj
    cases hb : rowSatisfies cols rw.1 (X.getD j []) with
    | true => exact (contains_iff_mem _ _).mpr (h.mpr hb)
    | false =>
        cases hc : (dfQueryIdx cols rw.1 X).contains j with
        | false => rfl
        | true =>
            rw [h.mp ((contains_iff_mem _ _).mp hc)] at hb
            exact Bool.noConfusion hb
  rw [hfilter]
  simp

/-! ## The estimator state and the `fit` pipeline -/

/-- The Python exceptions the embedded operations can raise, tagged by
the raising site. -/
inductive PyErr where
  /-- `check_X_y(X, y)` (line 143) rejects inconsistent lengths or an
  empty sample. -/
  | checkXY : PyErr
  /-- `ValueError` for a string `max_samples` (lines 154-157). -/
  | maxSamplesStr : PyErr
  /-- `ValueError: max_samples must be in (0, 1]` (lines 169-171). -/
  | maxSamplesRange : PyErr
  /-- `DecisionTreeClassifier.fit(X_train, y)` (line 185) rejects a
  feature matrix and label vector of different lengths. -/
  | clfFitLengthMismatch : PyErr
  /-- The key `lambda x: -x[1]` of the sort at line 213 raises on every
  rule string (`TypeError`: unary minus on a character, for strings of
  length at least two; `IndexError` for shorter ones), so `sorted`
  raises as soon as the list is non-empty. -/
  | sortKeyError : PyErr
  /-- `sklearn.exceptions.NotFittedError` from `check_is_fitted`
  (lines 237-238). -/
  | notFitted : PyErr
  /-- `AttributeError`: an instance attribute read before any
  assignment (`self.rules_` at line 265 on an unfitted model). -/
  | attributeError : PyErr
  /-- `ValueError` from unpacking a selected rule that is not a pair
  in `for (r, w) in selected_rules` (line 269). -/
  | unpackValueError : PyErr
deriving DecidableEq, Repr

/-- The dynamic type of the `max_samples` hyperparameter, matching the
three branches of lines 154-172 (string / integer / anything else,
commented `# float` in the source). -/
inductive MaxSamplesParam where
  | int (k : Int) : MaxSamplesParam
  | float (q : ℚ) : MaxSamplesParam
  | str (s : String) : MaxSamplesParam
deriving DecidableEq, Repr

/-- The dynamic content of the `rules_` attribute: `fit` stores a list
of plain rule strings, while `decision_function` unpacks the entries
as (rule, weight) pairs; both shapes occur in the source, so the model
keeps the union.  Structured rules stand for the source's rule strings
via `ruleStr`. -/
inductive RulesVal where
  | strs (rs : List String) : RulesVal
  | pairs (ps : List (List Atom × ℚ)) : RulesVal
deriving DecidableEq, Repr

/-- The estimator object: the constructor parameters that the embedded
operations read, and the four instance attributes that
`check_is_fitted` inspects, each `none` until assigned.  The remaining
constructor parameters (`max_features`, `max_depth`,
`min_samples_split`, `bootstrap`, `n_jobs`, `random_state`, `verbose`)
are only forwarded to the external tree learner and are folded into
the `learner` argument of `fitModel`. -/
structure ModelState where
  n_estimators : Nat
  feature_names : Option (List String)
  max_samples : MaxSamplesParam
  rules_ : Option RulesVal
  estimators_ : Option (List PyTree)
  estimators_samples_ : Option (List (List Nat))
  max_samples_ : Option Int
deriving DecidableEq, Repr

/-- `FraudToRules.__init__`: no instance attribute beyond the stored
constructor parameters is assigned. -/
def mkModel (nEst : Nat) (fns : Option (List String)) (ms : MaxSamplesParam) : ModelState :=
  { n_estimators := nEst
    feature_names := fns
    max_samples := ms
    rules_ := none
    estimators_ := none
    estimators_samples_ := none
    max_samples_ := none }

/-- `testing_size = int(X.shape[0] / 10.)` (line 145). -/
def holdoutSize (n : Nat) : Nat := n / 10

/-- `X[ind_test]` where `ind_test` is `range(X.shape[0])` after
`np.random.shuffle` (lines 146-147): the rows of `X` reordered by the
shuffled index list, which `fitModel` receives as the explicit
argument `perm` (randomness is not modelled; theorems quantify over
the permutation). -/
def permuted (perm : List Nat) (X : List (List ℚ)) : List (List ℚ) :=
  perm.map (fun i => X.getD i [])

/-- `X_test = X[ind_test][:testing_size]` (line 148). -/
def splitTest (perm : List Nat) (X : List (List ℚ)) : List (List ℚ) :=
  (permuted perm X).take (holdoutSize X.length)

/-- `X_train = X[ind_test][testing_size:]` (line 149). -/
def splitTrain (perm : List Nat) (X : List (List ℚ)) : List (List ℚ) :=
  (permuted perm X).drop (holdoutSize X.length)

/-- Lines 154-172: the `max_samples` validation against
`n_samples = X_train.shape[0]`.  A string raises; an integer larger
than `n_samples` is clamped to `n_samples` (with a warning, not
modelled); any other integer is kept unchecked; everything else is
treated as a float, rejected outside `(0, 1]`, and otherwise scaled by
`n_samples` and truncated (`int(...)`, a floor on the non-negative
product). -/
def validateMaxSamples (ms : MaxSamplesParam) (nSamples : Nat) : Except PyErr Int :=
  match ms with
  | .str _ => .error .maxSamplesStr
  | .int k => if k > (nSamples : Int) then .ok (nSamples : Int) else .ok k
  | .float q =>
      if 0 < q ∧ q ≤ 1 then .ok ⌊q * (nSamples : ℚ)⌋ else .error .maxSamplesRange

/-- `X_train.shape[1]`: the column count of the (non-empty, rectangular
after `check_X_y`) feature matrix, read off the first row. -/
def numCols (X : List (List ℚ)) : Nat := (X.getD 0 []).length

/-- Line 187-191: the feature names handed to `_tree_to_rules` — the
`feature_names` parameter when given, else
`map(str, range(X_train.shape[1]))`. -/
def featureNamesOrDefault (fns : Option (List String)) (k : Nat) : List String :=
  match fns with
  | some f => f
  | none => (List.range k).map toString

/-- The estimator loop of lines 179-192.  Each iteration builds a fresh
`DecisionTreeClassifier` and calls `clf.fit(X_train, y)`; the learner
is the external tree-induction capability (spec §6), modelled as an
opaque function argument, and scikit-learn's input validation rejects
a matrix and label vector of different lengths, so the first iteration
raises on a mismatch.  With equal lengths the model's deterministic
learner makes the `n_estimators` fitted trees identical. -/
def fitTrees (learner : List (List ℚ) → List Int → PyTree) (nEst : Nat)
    (XTrain : List (List ℚ)) (y : List Int) : Except PyErr (List PyTree) :=
  if nEst = 0 then .ok []
  else if XTrain.length = y.length then .ok (List.replicate nEst (learner XTrain y))
  else .error .clfFitLengthMismatch

/-- Line 213: `sorted(self.rules_, key=lambda x: -x[1])`.  `sorted`
applies the key to every element, and each element is a rule string,
so the key raises on any non-empty list (see `PyErr.sortKeyError`);
on the empty list the key is never called and the result is `[]`. -/
def sortRules : List String → Except PyErr (List String)
  | [] => .ok []
  | _ :: _ => .error .sortKeyError

/-- Lines 211-218 of `fit`: the tail of the pipeline after the trees
are fitted.  Line 211-212 builds `pandas.DataFrame(X_test,
columns=self.feature_names)` and stores `self.rules = [(r, df.query(r))
for r in self.rules_]` — an attribute (`rules`, distinct from `rules_`)
that no other part of the program reads, evaluated with the external
predicate engine modelled total per its spec contract (§4.2), so it
does not affect the result and is not stored here.  Then `rules_` is
re-assigned through the sort of line 213; `estimators_samples_` is
never assigned (the `XXX todo` at line 215). -/
def fitFinish (m : ModelState) (trees : List PyTree) (rules : List String)
    (maxS : Int) : Except PyErr ModelState :=
  match sortRules rules with
  | .error e => .error e
  | .ok sortedRules =>
      .ok { m with rules_ := some (RulesVal.strs sortedRules)
                   estimators_ := some trees
                   max_samples_ := some maxS }

/-- `FraudToRules.fit(X, y)` (lines 118-218): `check_X_y`, the holdout
split, `max_samples` validation, the estimator loop with rule
extraction, and the final sort and attribute assignment.  A raising
step is modelled as the error result (the source also mutates some
attributes before raising — `rules_` and `estimators_` are initialised
at lines 176-177 — but no claim reads attributes left by a failed
`fit`, so the model folds a raise into a plain error). -/
def fitModel (learner : List (List ℚ) → List Int → PyTree) (m : ModelState)
    (perm : List Nat) (X : List (List ℚ)) (y : List Int) : Except PyErr ModelState :=
  if X.length = y.length ∧ X.length ≠ 0 then
    match validateMaxSamples m.max_samples (splitTrain perm X).length with
    | .error e => .error e
    | .ok maxS =>
        match fitTrees learner m.n_estimators (splitTrain perm X) y with
        | .error e => .error e
        | .ok trees =>
            fitFinish m trees
              ((trees.map (treeToRules
                (featureNamesOrDefault m.feature_names (numCols X)))).join)
              maxS
  else .error .checkXY

/-! ## `predict` and `decision_function` -/

/-- `check_is_fitted(self, ['rules_', 'estimators_',
'estimators_samples_', 'max_samples_'])` (lines 237-238): true exactly
when all four attributes have been assigned. -/
def checkIsFitted (m : ModelState) : Bool :=
  m.rules_.isSome && m.estimators_.isSome &&
    m.estimators_samples_.isSome && m.max_samples_.isSome

/-- The pandas frame columns of `decision_function` line 266:
`pandas.DataFrame(X, columns=self.feature_names)`.  With
`feature_names=None` the frame gets positional integer labels, which
no rule string can name — modelled as an empty column list (no atom
resolves). -/
def dfCols (fns : Option (List String)) : List String :=
  fns.getD []

/-- `FraudToRules.decision_function(X)` (lines 245-273).  There is no
fitted-state check: reading `self.rules_` on a model that never
assigned it raises `AttributeError`.  With pair-shaped rules the
scoring loop of lines 268-272 runs (`decisionScores`); with the
string-shaped rules `fit` stores, the unpacking `for (r, w) in
selected_rules` raises unless the selection is empty, in which case
the loop body never runs and the zero vector is negated. -/
def decisionFunction (m : ModelState) (X : List (List ℚ)) : Except PyErr (List ℚ) :=
  match m.rules_ with
  | none => .error .attributeError
  | some (RulesVal.pairs ps) =>
      .ok (decisionScores (dfCols m.feature_names) ps m.n_estimators X)
  | some (RulesVal.strs rs) =>
      match rs.take m.n_estimators with
      | [] => .ok ((List.replicate X.length (0 : ℚ)).map (fun s => -s))
      | _ :: _ => .error .unpackValueError

/-- `FraudToRules.predict(X)` (lines 220-243): the `check_is_fitted`
guard, then `2 * (self.decision_function(X) == 0) - 1` elementwise
(`check_array(X)` only re-validates the input array shape and is the
identity on a well-formed matrix). -/
def predict (m : ModelState) (X : List (List ℚ)) : Except PyErr (List Int) :=
  if checkIsFitted m then
    match decisionFunction m X with
    | .error e => .error e
    | .ok scores =>
        .ok (scores.map (fun s => 2 * (if s = 0 then (1 : Int) else 0) - 1))
  else .error .notFitted

/-! ## Claim C1 -/

/-- Claim C1: for every decision tree with `k` leaves, `_tree_to_rules`
returns exactly `k` rules, one per leaf, and the rule list is exactly
the root-to-leaf comparison paths — descending to a left child appends
`feature <= threshold`, descending to a right child appends
`feature > threshold` — each rendered as the conjunction of its
comparisons. -/
theorem tree_to_rules_one_rule_per_leaf (fns : List String) (t : PyTree) :
    (treeToRules fns t).length = numLeaves t ∧
      treeToRules fns t = (specPaths fns t).map ruleStr :=
  ⟨treeToRules_length fns t, treeToRules_spec fns t⟩

/-! ## Claim C2 -/

/-- Claim C2: on a fitted model whose rule list holds (rule, weight)
pairs, `decision_function` selects the first `top_n` entries of the
ranked rule list (the slice `self.rules_[:self.n_estimators]`), and
each record's score is the negated sum of the weights of the selected
rules the record satisfies; a record satisfying zero selected rules
scores exactly 0. -/
theorem decision_function_negated_weight_sum (m : ModelState)
    (ps : List (List Atom × ℚ)) (X : List (List ℚ)) (j : Nat)
    (hrules : m.rules_ = some (RulesVal.pairs ps)) (hj : j < X.length) :
    decisionFunction m X =
      Except.ok (decisionScores (dfCols m.feature_names) ps m.n_estimators X) ∧
    (decisionScores (dfCols m.feature_names) ps m.n_estimators X).get? j =
      some (-(((ps.take m.n_estimators).filter
        (fun rw => rowSatisfies (dfCols m.feature_names) rw.1 (X.getD j []))).map
          Prod.snd).sum) ∧
    ((∀ rw ∈ ps.take m.n_estimators,
        rowSatisfies (dfCols m.feature_names) rw.1 (X.getD j []) = false) →
      (decisionScores (dfCols m.feature_names) ps m.n_estimators X).get? j = some 0) := by
  refine ⟨by simp [decisionFunction, hrules], decisionScores_get? _ _ _ _ _ hj, ?_⟩
  intro hnone
  rw [decisionScores_get? _ _ _ _ _ hj]
  have hnil : (ps.take m.n_estimators).filter
      (fun rw => rowSatisfies (dfCols m.feature_names) rw.1 (X.getD j [])) = [] := by
    apply List.filter_eq_nil_iff.mpr
    intro a ha
    simp only [hnone a ha, Bool.false_eq_true, not_false_eq_true]
  rw [hnil]
  simp

/-- The concrete scenario of spec §8: rules `age <= 30` with weight
4/5 and `amount > 1000` with weight 1/2, `top_n = 2`. -/
def c2Model : ModelState :=
  { mkModel 2 (some ["age", "amount"]) (MaxSamplesParam.int 1) with
      rules_ := some (RulesVal.pairs
        [([⟨"age", CmpOp.le, 30⟩], 4/5), ([⟨"amount", CmpOp.gt, 1000⟩], 1/2)]) }

theorem decision_function_negated_weight_sum_witness :
    decisionFunction c2Model [[25, 2000], [40, 500]] =
      Except.ok (decisionScores (dfCols c2Model.feature_names)
        [([⟨"age", CmpOp.le, 30⟩], 4/5), ([⟨"amount", CmpOp.gt, 1000⟩], 1/2)]
        c2Model.n_estimators [[25, 2000], [40, 500]]) ∧
    (decisionScores (dfCols c2Model.feature_names)
        [([⟨"age", CmpOp.le, 30⟩], 4/5), ([⟨"amount", CmpOp.gt, 1000⟩], 1/2)]
        c2Model.n_estimators [[25, 2000], [40, 500]]).get? 0 =
      some (-((([([⟨"age", CmpOp.le, 30⟩], (4/5 : ℚ)),
          ([⟨"amount", CmpOp.gt, 1000⟩], 1/2)].take c2Model.n_estimators).filter
        (fun rw => rowSatisfies (dfCols c2Model.feature_names) rw.1
          ([[25, 2000], [40, 500]].getD 0 []))).map Prod.snd).sum) ∧
    ((∀ rw ∈ [([⟨"age", CmpOp.le, 30⟩], (4/5 : ℚ)),
        ([⟨"amount", CmpOp.gt, 1000⟩], 1/2)].take c2Model.n_estimators,
        rowSatisfies (dfCols c2Model.feature_names) rw.1
          ([[25, 2000], [40, 500]].getD 0 []) = false) →
      (decisionScores (dfCols c2Model.feature_names)
        [([⟨"age", CmpOp.le, 30⟩], 4/5), ([⟨"amount", CmpOp.gt, 1000⟩], 1/2)]
        c2Model.n_estimators [[25, 2000], [40, 500]]).get? 0 = some 0) :=
  decision_function_negated_weight_sum c2Model
    [([⟨"age", CmpOp.le, 30⟩], 4/5), ([⟨"amount", CmpOp.gt, 1000⟩], 1/2)]
    [[25, 2000], [40, 500]] 0 rfl (by decide)

/-! ## Claim C3 -/

/-- Claim C3: on a model passing the fitted check, `predict` returns
`2 * (decision_function(X) == 0) - 1` elementwise, i.e. the label is
`+1` exactly on the records whose decision-function value equals 0 and
`-1` otherwise. -/
theorem predict_label_iff_zero_score (m : ModelState) (X : List (List ℚ))
    (scores : List ℚ) (hf : checkIsFitted m = true)
    (hd : decisionFunction m X = Except.ok scores) :
    predict m X =
      Except.ok (scores.map (fun s => if s = 0 then (1 : Int) else -1)) := by
  have hfun : (fun s : ℚ => 2 * (if s = 0 then (1 : Int) else 0) - 1) =
      (fun s : ℚ => if s = 0 then (1 : Int) else -1) := by
    funext s
    by_cases h : s = 0 <;> simp [h]
  simp only [predict, hf, if_true, hd, hfun]

def c3Model : ModelState :=
  { mkModel 1 (some ["age"]) (MaxSamplesParam.int 1) with
      rules_ := some (RulesVal.pairs [([⟨"age", CmpOp.le, 30⟩], 4/5)])
      estimators_ := some []
      estimators_samples_ := some []
      max_samples_ := some 1 }

theorem predict_label_iff_zero_score_witness :
    predict c3Model [[40]] =
      Except.ok (([0] : List ℚ).map (fun s => if s = 0 then (1 : Int) else -1)) :=
  predict_label_iff_zero_score c3Model [[40]] [0] (by decide) (by decide)

/-! ## Claim C4 -/

/-- Claim C4 (code bug, evaluated at the failing input): on the default
configuration (`n_estimators = 1`, `max_samples = 1.0`) with a
two-sample training set, `fit` reaches line 213 and the sort key
`lambda x: -x[1]` raises on the rule strings, so `fit` never produces
a weight-sorted `rules_` (the (rule, weight) pairs were stored in the
separate attribute `rules`, and `rules_` still holds plain strings when
sorted). -/
theorem fit_sort_key_type_error :
    fitModel (fun _ _ => PyTree.node 0 (3/2) PyTree.leaf PyTree.leaf)
      (mkModel 1 (some ["age"]) (MaxSamplesParam.float 1)) [0, 1] [[0], [1]] [1, -1] =
      Except.error PyErr.sortKeyError := by decide

/-! ## Claim C5 -/

/-- Claim C5: whenever the `max_samples` hyperparameter is a float
outside `(0, 1]`, `fit` fails with the `ValueError` of lines 169-171
(raised during the eager validation, before any fitted attribute is
produced). -/
theorem fit_rejects_float_max_samples_out_of_range
    (learner : List (List ℚ) → List Int → PyTree) (m : ModelState)
    (perm : List Nat) (X : List (List ℚ)) (y : List Int) (q : ℚ)
    (hms : m.max_samples = MaxSamplesParam.float q) (hq : ¬(0 < q ∧ q ≤ 1))
    (hxy : X.length = y.length) (hx : X ≠ []) :
    fitModel learner m perm X y = Except.error PyErr.maxSamplesRange := by
  have hlen : X.length ≠ 0 := fun h => hx (List.length_eq_zero.mp h)
  unfold fitModel
  rw [if_pos ⟨hxy, hlen⟩]
  simp [validateMaxSamples, hms, hq]

theorem fit_rejects_float_max_samples_out_of_range_witness :
    fitModel (fun _ _ => PyTree.leaf) (mkModel 1 none (MaxSamplesParam.float 2))
      [0] [[1]] [1] = Except.error PyErr.maxSamplesRange :=
  fit_rejects_float_max_samples_out_of_range (fun _ _ => PyTree.leaf)
    (mkModel 1 none (MaxSamplesParam.float 2)) [0] [[1]] [1] 2
    rfl (by decide) rfl (by decide)

/-! ## Claim C6 -/

/-- Claim C6, counterexample: on a freshly constructed (never fitted)
model, `decision_function` does not fail with the NotFitted error —
it has no fitted-state check and raises `AttributeError` when reading
the missing `rules_` attribute. -/
theorem decision_function_unfitted_not_notfitted_cex :
    decisionFunction (mkModel 1 none (MaxSamplesParam.float 1)) [[0]] =
      Except.error PyErr.attributeError ∧
    decisionFunction (mkModel 1 none (MaxSamplesParam.float 1)) [[0]] ≠
      Except.error PyErr.notFitted := by decide

/-- Claim C6 as amended: on a model whose `rules_` attribute was never
assigned (fit not called), `predict` fails with the NotFitted error
from `check_is_fitted`, while `decision_function` fails with an
`AttributeError` (it performs no fitted-state check and reads
`self.rules_` directly). -/
theorem unfitted_predict_notfitted_df_attribute_error
    (m : ModelState) (X : List (List ℚ)) (h : m.rules_ = none) :
    predict m X = Except.error PyErr.notFitted ∧
    decisionFunction m X = Except.error PyErr.attributeError := by
  constructor
  · have hc : checkIsFitted m = false := by simp [checkIsFitted, h]
    simp [predict, hc]
  · simp [decisionFunction, h]

theorem unfitted_predict_notfitted_df_attribute_error_witness :
    predict (mkModel 3 none (MaxSamplesParam.int 2)) [[7]] =
      Except.error PyErr.notFitted ∧
    decisionFunction (mkModel 3 none (MaxSamplesParam.int 2)) [[7]] =
      Except.error PyErr.attributeError :=
  unfitted_predict_notfitted_df_attribute_error
    (mkModel 3 none (MaxSamplesParam.int 2)) [[7]] rfl

/-! ## Claim C7 -/

/-- Claim C7: a root-is-leaf tree yields the single empty-conjunction
rule (the accumulated comparison list is empty, rendered as the empty
string), and the empty conjunction matches every row of any dataset it
is evaluated against. -/
theorem empty_conjunction_rule_matches_all_rows
    (fns cols : List String) (X : List (List ℚ)) :
    treeToRules fns PyTree.leaf = [ruleStr []] ∧
    ruleStr [] = "" ∧
    dfQueryIdx cols [] X = List.range X.length := by
  refine ⟨rfl, by decide, ?_⟩
  unfold dfQueryIdx
  apply List.filter_eq_self.mpr
  intro a _
  rfl

/-! ## Claim C8 -/

/-- Claim C8, counterexample: on a two-row input (held-out partition
`int(2/10) = 0` rows, i.e. empty), `fit` does not fail fast with a
degenerate-input error: the eager `max_samples` validation succeeds,
the tree-fitting stage succeeds, and the eventual failure is the
rule-sorting key error raised after rule extraction and holdout
evaluation. -/
theorem fit_empty_holdout_no_fail_fast_cex :
    splitTest [0, 1] [[5], [6]] = [] ∧
    validateMaxSamples (MaxSamplesParam.int 3) (splitTrain [0, 1] [[5], [6]]).length =
      Except.ok 2 ∧
    fitTrees (fun _ _ => PyTree.leaf) 1 (splitTrain [0, 1] [[5], [6]]) [1, -1] =
      Except.ok [PyTree.leaf] ∧
    fitModel (fun _ _ => PyTree.leaf) (mkModel 1 none (MaxSamplesParam.int 3))
      [0, 1] [[5], [6]] [1, -1] = Except.error PyErr.sortKeyError := by decide

/-- Claim C8 as amended: on a training input whose held-out partition
is empty (fewer than 10 rows), `fit` performs no degenerate-input
check; whenever the parameter validation passes and at least one
estimator is configured, it proceeds through tree fitting, rule
extraction and holdout evaluation, and only then fails — at the final
rule-sorting step, with the sort-key error, not with a clear
degenerate-input error. -/
theorem fit_empty_holdout_reaches_sort
    (learner : List (List ℚ) → List Int → PyTree) (m : ModelState)
    (perm : List Nat) (X : List (List ℚ)) (y : List Int) (v : Int)
    (hxy : X.length = y.length) (hx : X ≠ []) (hsmall : X.length < 10)
    (hperm : perm.length = X.length) (hest : 1 ≤ m.n_estimators)
    (hv : validateMaxSamples m.max_samples (splitTrain perm X).length = Except.ok v) :
    splitTest perm X = [] ∧
    fitModel learner m perm X y = Except.error PyErr.sortKeyError := by
  have h0 : holdoutSize X.length = 0 := Nat.div_eq_of_lt hsmall
  refine ⟨by simp [splitTest, h0], ?_⟩
  have hlen : X.length ≠ 0 := fun h => hx (List.length_eq_zero.mp h)
  have htrlen : (splitTrain perm X).length = y.length := by
    simp [splitTrain, permuted, h0, hperm, ← hxy]
  have hne : m.n_estimators ≠ 0 := by omega
  unfold fitModel
  rw [if_pos ⟨hxy, hlen⟩, hv]
  unfold fitTrees
  rw [if_neg hne, if_pos htrlen]
  have hrules : ((List.replicate m.n_estimators
      (learner (splitTrain perm X) y)).map (treeToRules
        (featureNamesOrDefault m.feature_names (numCols X)))).join ≠ [] := by
    intro hnil
    have hmem : treeToRules (featureNamesOrDefault m.feature_names (numCols X))
        (learner (splitTrain perm X) y) ∈
        (List.replicate m.n_estimators (learner (splitTrain perm X) y)).map
          (treeToRules (featureNamesOrDefault m.feature_names (numCols X))) :=
      List.mem_map_of_mem _ (List.mem_replicate.mpr ⟨hne, rfl⟩)
    exact treeToRules_ne_nil _ _ (List.join_eq_nil_iff.mp hnil _ hmem)
  obtain ⟨a, l, hr⟩ : ∃ a l, ((List.replicate m.n_estimators
      (learner (splitTrain perm X) y)).map (treeToRules
        (featureNamesOrDefault m.feature_names (numCols X)))).join = a :: l := by
    cases hc : ((List.replicate m.n_estimators
        (learner (splitTrain perm X) y)).map (treeToRules
          (featureNamesOrDefault m.feature_names (numCols X)))).join with
    | nil => exact absurd hc hrules
    | cons a l => exact ⟨a, l, rfl⟩
  show fitFinish m (List.replicate m.n_estimators (learner (splitTrain perm X) y))
      ((List.replicate m.n_estimators (learner (splitTrain perm X) y)).map
        (treeToRules (featureNamesOrDefault m.feature_names (numCols X)))).join v =
    Except.error PyErr.sortKeyError
  unfold fitFinish
  rw [hr]
  rfl

theorem fit_empty_holdout_reaches_sort_witness :
    splitTest [0, 1] [[2], [3]] = [] ∧
    fitModel (fun _ _ => PyTree.leaf) (mkModel 1 none (MaxSamplesParam.int 1))
      [0, 1] [[2], [3]] [1, 1] = Except.error PyErr.sortKeyError :=
  fit_empty_holdout_reaches_sort (fun _ _ => PyTree.leaf)
    (mkModel 1 none (MaxSamplesParam.int 1)) [0, 1] [[2], [3]] [1, 1] 1
    rfl (by decide) (by decide) rfl (by decide) (by decide)

/-! ## Claim C9 -/

/-- Claim C9: `fit` never assigns `estimators_samples_` (the `XXX todo`
at line 215), while `predict` requires that attribute through
`check_is_fitted`; hence on any model whose `estimators_samples_` was
not assigned before the call, a successful `fit` still leaves every
subsequent `predict` failing with the NotFitted error. -/
theorem fit_never_sets_estimators_samples
    (learner : List (List ℚ) → List Int → PyTree) (m : ModelState)
    (perm : List Nat) (X : List (List ℚ)) (y : List Int) (m' : ModelState)
    (hsamp : m.estimators_samples_ = none)
    (hfit : fitModel learner m perm X y = Except.ok m') :
    m'.estimators_samples_ = none ∧
    ∀ X2 : List (List ℚ), predict m' X2 = Except.error PyErr.notFitted := by
  have hsamp' : m'.estimators_samples_ = none := by
    unfold fitModel at hfit
    split at hfit
    · split at hfit
      · exact Except.noConfusion hfit
      · split at hfit
        · exact Except.noConfusion hfit
        · unfold fitFinish at hfit
          split at hfit
          · exact Except.noConfusion hfit
          · have := Except.ok.inj hfit
            rw [← this]
            exact hsamp
    · exact Except.noConfusion hfit
  refine ⟨hsamp', fun X2 => ?_⟩
  have hc : checkIsFitted m' = false := by
    simp [checkIsFitted, hsamp']
  simp [predict, hc]

def c9Fitted : ModelState :=
  { n_estimators := 0
    feature_names := none
    max_samples := MaxSamplesParam.int 1
    rules_ := some (RulesVal.strs [])
    estimators_ := some []
    estimators_samples_ := none
    max_samples_ := some 1 }

theorem fit_never_sets_estimators_samples_witness :
    c9Fitted.estimators_samples_ = none ∧
    predict c9Fitted [[3]] = Except.error PyErr.notFitted :=
  have h := fit_never_sets_estimators_samples (fun _ _ => PyTree.leaf)
    (mkModel 0 none (MaxSamplesParam.int 1)) [0] [[3]] [1] c9Fitted rfl (by decide)
  ⟨h.1, h.2 [[3]]⟩

/-! ## Claim C10 -/

/-- Claim C10: `fit` splits off `int(n/10)` holdout rows, so the
training matrix handed to `DecisionTreeClassifier.fit` has
`n - n/10` rows, while the label vector passed alongside is the full
unsplit `y`; for any input with at least 10 rows (and at least one
estimator, with the `max_samples` validation passing), the two lengths
differ and `fit` raises instead of returning a fitted model. -/
theorem fit_train_label_length_mismatch
    (learner : List (List ℚ) → List Int → PyTree) (m : ModelState)
    (perm : List Nat) (X : List (List ℚ)) (y : List Int) (v : Int)
    (hxy : X.length = y.length) (h10 : 10 ≤ X.length)
    (hperm : perm.length = X.length) (hest : 1 ≤ m.n_estimators)
    (hv : validateMaxSamples m.max_samples (splitTrain perm X).length = Except.ok v) :
    (splitTrain perm X).length = X.length - X.length / 10 ∧
    (splitTrain perm X).length < y.length ∧
    fitModel learner m perm X y = Except.error PyErr.clfFitLengthMismatch := by
  have htr : (splitTrain perm X).length = X.length - X.length / 10 := by
    simp [splitTrain, permuted, holdoutSize, hperm]
  have hdiv : 0 < X.length / 10 := Nat.div_pos h10 (by norm_num)
  have hlt : (splitTrain perm X).length < y.length := by
    rw [htr, ← hxy]
    omega
  refine ⟨htr, hlt, ?_⟩
  have hlen : X.length ≠ 0 := by omega
  unfold fitModel
  rw [if_pos ⟨hxy, hlen⟩, hv]
  unfold fitTrees
  rw [if_neg (by omega : ¬ m.n_estimators = 0),
    if_neg (Nat.ne_of_lt hlt : ¬ (splitTrain perm X).length = y.length)]

theorem fit_train_label_length_mismatch_witness :
    (splitTrain (List.range 10) (List.replicate 10 [0])).length =
      (List.replicate (10 : Nat) ([0] : List ℚ)).length -
        (List.replicate (10 : Nat) ([0] : List ℚ)).length / 10 ∧
    (splitTrain (List.range 10) (List.replicate 10 [0])).length <
      (List.replicate (10 : Nat) (1 : Int)).length ∧
    fitModel (fun _ _ => PyTree.leaf) (mkModel 1 none (MaxSamplesParam.int 1))
      (List.range 10) (List.replicate 10 [0]) (List.replicate 10 1) =
      Except.error PyErr.clfFitLengthMismatch :=
  fit_train_label_length_mismatch (fun _ _ => PyTree.leaf)
    (mkModel 1 none (MaxSamplesParam.int 1)) (List.range 10)
    (List.replicate 10 [0]) (List.replicate 10 1) 1
    (by decide) (by decide) (by decide) (by decide) (by decide)

end FraudToRules
